import Mathlib

/-!
Shallow embedding of the hybridsearch-ai repository (src/app.py,
src/search/web_search.py, src/models/llm_handler.py) and proofs about the
claims of its specification.

Conventions of the embedding:
* Wall-clock instants (`time.time()`) are integers passed explicitly.
* Python dicts keyed by strings become functions `String → Option _`;
  process-global mutable state becomes an `AppState` value threaded through
  the request handler.
* Outbound network calls are oracles passed as parameters: an
  `Except Unit _` or a dedicated outcome type stands for "the call either
  raised or returned this payload"; catching an exception in the source is a
  `match` on that oracle.
* Environment configuration (`os.getenv`) becomes `Option String` parameters
  with the source's defaults applied by `Option.getD`.
-/

namespace HybridSearch

/-! ## Configuration constants (src/app.py lines 22-27) -/

/-- RATE_LIMIT_SEARCHES = 50 (searches per hour), app.py line 26. -/
def RATE_LIMIT_SEARCHES : Nat := 50

/-- RATE_LIMIT_WINDOW = 3600 seconds, app.py line 27. -/
def RATE_LIMIT_WINDOW : Int := 3600

/-! ## Rate limiter (src/app.py lines 90-123) -/

/-- Embedding of `check_rate_limit(user_id)` (app.py lines 90-104).  The
Python function first reassigns `rate_limit_tracker[user_id]` to the pruned
timestamp list (keeping `ts` with `now - ts < RATE_LIMIT_WINDOW`), then
returns `(False, 0)` when the surviving count has reached the limit and
`(True, limit - count)` otherwise.  The result is (pruned record, allowed,
remaining). -/
def check_rate_limit (now : Int) (record : List Int) : List Int × Bool × Nat :=
  let kept := record.filter (fun ts => decide (now - ts < RATE_LIMIT_WINDOW))
  if RATE_LIMIT_SEARCHES ≤ kept.length then (kept, false, 0)
  else (kept, true, RATE_LIMIT_SEARCHES - kept.length)

/-- Embedding of `record_search(user_id)` (app.py lines 106-108): append the
current instant to the identity's record. -/
def record_search (now : Int) (record : List Int) : List Int := record ++ [now]

/-- Rendering of the spec sentence "discard all instants older than
`now - windowSeconds`" taken literally: a timestamp survives when it is not
strictly older than `now - windowSeconds`.  Kept for comparison with the
filter `check_rate_limit` actually applies (`now - ts < RATE_LIMIT_WINDOW`,
which also discards the timestamp exactly `windowSeconds` old). -/
def spec_surviving_timestamps (now : Int) (record : List Int) : List Int :=
  record.filter (fun ts => decide (now - RATE_LIMIT_WINDOW ≤ ts))

/-! ## Result cache (src/app.py lines 126-146) -/

/-- The in-memory `search_cache` dict: a map from derived string keys to
`(cached value, creation instant)`. -/
abbrev Cache (α : Type) := String → Option (α × Int)

/-- Store a value under a key, overwriting any previous entry. -/
def cacheInsert {α : Type} (c : Cache α) (k : String) (v : α) (t : Int) : Cache α :=
  fun k' => if k' = k then some (v, t) else c k'

/-- Embedding of the body of the `cache_result` decorator's wrapper
(app.py lines 130-144) for one call: if the key is present and
`now - timestamp < duration`, return the cached value untouched; otherwise
invoke `compute`, store `(result, now)` under the key and return it.  The
third component records whether `compute` was invoked by this call. -/
def cache_result {α : Type} (duration : Int) (key : String) (compute : Unit → α)
    (now : Int) (c : Cache α) : α × Cache α × Bool :=
  match c key with
  | some (cachedData, timestamp) =>
    if now - timestamp < duration then (cachedData, c, false)
    else
      let result := compute ()
      (result, cacheInsert c key result now, true)
  | none =>
    let result := compute ()
    (result, cacheInsert c key result now, true)

/-! ## Search history (src/app.py lines 327-341) -/

/-- One entry of the global `search_history` list (app.py lines 331-335). -/
structure HistoryEntry where
  query : String
  mode : String
  timestamp : String
deriving DecidableEq

/-- Embedding of `add_to_history(query, mode)` (app.py lines 327-341):
insert the new entry at the head, then truncate to `MAX_HISTORY` items.
`maxHistory` is the environment-configured `MAX_HISTORY` (default 10). -/
def add_to_history (maxHistory : Nat) (timeStr query mode : String)
    (hist : List HistoryEntry) : List HistoryEntry :=
  ({ query := query, mode := mode, timestamp := timeStr } :: hist).take maxHistory

/-- A sequence of `add_to_history` insertions, oldest first. -/
def insertAll (maxHistory : Nat) (es : List HistoryEntry)
    (hist : List HistoryEntry) : List HistoryEntry :=
  es.foldl (fun h e => add_to_history maxHistory e.timestamp e.query e.mode h) hist

/-! ## Search results and the web search provider
(src/app.py lines 150-206, src/search/web_search.py) -/

/-- A search hit as both search implementations shape it: the spec's
`SourceResult` record `{title, snippet, url, source}`. -/
structure SourceResult where
  title : String
  snippet : String
  url : String
  source : String
deriving DecidableEq

/-- One item of the Serper response's `organic` array.  Fields are optional
because the source reads them with `item.get(...)` and a default. -/
structure SerperItem where
  title : Option String
  snippet : Option String
  link : Option String
deriving DecidableEq

/-- The `knowledgeGraph` block of a Serper response, as
`WebSearch._search_serper` reads it. -/
structure KnowledgeGraph where
  title : Option String
  description : Option String
  website : Option String
deriving DecidableEq

/-- The decoded JSON payload of a successful Serper call. -/
structure SerperData where
  organic : List SerperItem
  knowledgeGraph : Option KnowledgeGraph
deriving DecidableEq

/-- Outcome of the outbound Serper HTTP call made by `search_web` in app.py:
`requests.post` + `raise_for_status` either raises
`requests.exceptions.Timeout`, raises another `RequestException` carrying a
message, or returns a decoded payload. -/
inductive SerperOutcome where
  | timeout
  | requestError (msg : String)
  | ok (data : SerperData)
deriving DecidableEq

/-- Embedding of `search_web(query)` (app.py lines 150-206), the function the
pipeline's `/search` route uses (before the caching decorator is applied).
Missing key, timeout and request errors each return a single diagnostic
entry; a successful call shapes up to 5 organic hits and substitutes a
single "No Results Found" entry when there are none. -/
def search_web (serperKey : Option String) (http : SerperOutcome)
    (query : String) : List SourceResult :=
  match serperKey with
  | none =>
    [{ title := "API Key Not Configured",
       snippet := "Please add SERPER_API_KEY to your .env file. Get one at https://serper.dev",
       url := "https://serper.dev",
       source := "Error" }]
  | some _ =>
    match http with
    | .timeout =>
      [{ title := "Search Timeout",
         snippet := "The search request took too long. Please try again.",
         url := "#",
         source := "Error" }]
    | .requestError e =>
      [{ title := "Search Error",
         snippet := "Unable to perform search: " ++ e,
         url := "#",
         source := "Error" }]
    | .ok results =>
      let sources := (results.organic.take 5).map (fun item =>
        { title := item.title.getD "No title",
          snippet := item.snippet.getD "No description available",
          url := item.link.getD "#",
          source := "Serper" })
      if sources.isEmpty then
        sources ++ [{ title := "No Results Found",
                      snippet := "Try a different search query.",
                      url := "#",
                      source := "Serper" }]
      else sources

namespace WebSearch

/-- Outcome of one `DDGS().text(...)` item (src/search/web_search.py lines
75-84): the library yields dicts with `title`, `body`, `href`. -/
structure DdgItem where
  title : String
  body : String
  href : String
deriving DecidableEq

/-- Embedding of `WebSearch._search_serper(query, max_results)`
(web_search.py lines 27-67).  The `Except Unit` propagates the exception the
HTTP call or `raise_for_status` may raise; on success the organic hits are
shaped and a knowledge-graph block with a description is prepended while the
result count is still below `max_results`. -/
def searchSerper (http : Except Unit SerperData) (maxResults : Nat) :
    Except Unit (List SourceResult) := do
  let data ← http
  let results := (data.organic.take maxResults).map (fun r =>
    { title := r.title.getD "",
      snippet := r.snippet.getD "",
      url := r.link.getD "",
      source := "Google (via Serper)" : SourceResult })
  match data.knowledgeGraph with
  | some kg =>
    if results.length < maxResults then
      match kg.description with
      | some desc =>
        return ({ title := kg.title.getD "",
                  snippet := desc,
                  url := kg.website.getD "",
                  source := "Knowledge Graph" } :: results)
      | none => return results
    else return results
  | none => return results

/-- Embedding of `WebSearch._search_duckduckgo(query, max_results)`
(web_search.py lines 69-87): the whole body sits in a `try` whose `except`
returns `[]`, so a failed secondary call yields the empty list. -/
def searchDuckduckgo (ddg : Except Unit (List DdgItem)) : List SourceResult :=
  match ddg with
  | .ok items =>
    items.map (fun r =>
      { title := r.title, snippet := r.body, url := r.href, source := "DuckDuckGo" })
  | .error _ => []

/-- Embedding of `WebSearch.search(query, max_results)` (web_search.py lines
9-25).  With a configured key the primary provider is tried inside a `try`:
a raised exception or an empty (falsy) result list falls through to the
DuckDuckGo fallback; without a key the fallback is called directly. -/
def search (serperKey : Option String) (http : Except Unit SerperData)
    (ddg : Except Unit (List DdgItem)) (maxResults : Nat) : List SourceResult :=
  match serperKey with
  | some _ =>
    (match searchSerper http maxResults with
     | .ok results => if results.isEmpty then searchDuckduckgo ddg else results
     | .error _ => searchDuckduckgo ddg)
  | none => searchDuckduckgo ddg

end WebSearch

/-! ## Answer generators (src/app.py lines 208-325) -/

/-- The context block shared verbatim by all three generators (app.py lines
216, 253, 285): join the `**title**: snippet` rendering of every source whose
`source` tag is not `"Error"` with a blank line. -/
def source_context (sources : List SourceResult) : String :=
  String.intercalate "\n\n"
    ((sources.filter (fun s => decide (s.source ≠ "Error"))).map
      (fun s => "**" ++ s.title ++ "**: " ++ s.snippet))

/-- The prompt template of `generate_answer_groq` and
`generate_answer_openai` (app.py lines 218-230 and 255-267, identical
text). -/
def hosted_prompt (query context : String) : String :=
  "You are a helpful AI assistant. Based on the following sources, provide a comprehensive and well-structured answer to this question: "
    ++ query
    ++ "\n\nSources:\n"
    ++ context
    ++ "\n\nInstructions:\n- Provide a detailed, informative answer\n- Use bullet points and clear structure\n- Cite information naturally\n- If sources are insufficient, acknowledge limitations\n- Be accurate and objective\n\nAnswer:"

/-- The prompt template of `generate_answer_local` (app.py lines 287-292). -/
def local_prompt (query context : String) : String :=
  "Based on the following sources, answer this question: "
    ++ query
    ++ "\n\nSources:\n"
    ++ context
    ++ "\n\nProvide a comprehensive answer:"

/-- Embedding of `generate_answer_groq(query, sources)` (app.py lines
208-243).  `api` is the oracle for the chat-completion call on a given
prompt: `Except.error msg` stands for a raised exception with message
`msg`. -/
def generate_answer_groq (groqKey : Option String)
    (api : String → Except String String) (query : String)
    (sources : List SourceResult) : String :=
  match groqKey with
  | none => "Error: Groq API key not configured. Please add GROQ_API_KEY to your .env file."
  | some _ =>
    match api (hosted_prompt query (source_context sources)) with
    | .ok content => content
    | .error e =>
      "Error generating answer with Groq: " ++ e
        ++ "\n\nPlease check your API key or try a different model."

/-- Embedding of `generate_answer_openai(query, sources)` (app.py lines
245-280), identical in structure to the Groq variant. -/
def generate_answer_openai (openaiKey : Option String)
    (api : String → Except String String) (query : String)
    (sources : List SourceResult) : String :=
  match openaiKey with
  | none => "Error: OpenAI API key not configured. Please add OPENAI_API_KEY to your .env file."
  | some _ =>
    match api (hosted_prompt query (source_context sources)) with
    | .ok content => content
    | .error e =>
      "Error generating answer with OpenAI: " ++ e
        ++ "\n\nPlease check your API key or try a different model."

/-- Outcome of the HTTP POST to the local Ollama daemon made by
`generate_answer_local` (app.py lines 297-305): a connection error, some
other raised exception with a message, or a response with a status code and
the optional `response` field of its JSON body. -/
inductive OllamaOutcome where
  | connectionError
  | exn (msg : String)
  | resp (statusCode : Nat) (body : Option String)
deriving DecidableEq

/-- Embedding of `generate_answer_local(query, sources)` (app.py lines
282-316).  `ollama` is the oracle for the POST to the local daemon on a
given prompt. -/
def generate_answer_local (ollama : String → OllamaOutcome) (query : String)
    (sources : List SourceResult) : String :=
  match ollama (local_prompt query (source_context sources)) with
  | .connectionError =>
    "Error: Cannot connect to Ollama. Make sure Ollama is running locally (http://localhost:11434)"
  | .exn e => "Error generating answer with Ollama: " ++ e
  | .resp statusCode body =>
    if statusCode = 200 then body.getD "No response generated"
    else "Error: Ollama returned status code " ++ toString statusCode

/-- The three answer-generation strategies `generate_answer` dispatches
among (`ollama` being the source's `'local'` mode, a reserved word in
Lean). -/
inductive Backend where
  | groq
  | openai
  | ollama
deriving DecidableEq

/-- The dispatch decision of `generate_answer(query, sources, mode)`
(app.py lines 318-325): `'openai'` and `'local'` select their backends and
everything else defaults to Groq. -/
def generate_answer_backend (mode : String) : Backend :=
  if mode = "openai" then .openai
  else if mode = "local" then .ollama
  else .groq

/-- Embedding of `generate_answer(query, sources, mode)` (app.py lines
318-325), with the oracles of all three backends supplied. -/
def generate_answer (groqKey openaiKey : Option String)
    (groqApi openaiApi : String → Except String String)
    (ollama : String → OllamaOutcome)
    (query : String) (sources : List SourceResult) (mode : String) : String :=
  if mode = "openai" then generate_answer_openai openaiKey openaiApi query sources
  else if mode = "local" then generate_answer_local ollama query sources
  else generate_answer_groq groqKey groqApi query sources

/-! ## Session mode (src/app.py lines 343-345, 418-439) -/

/-- The recognized mode set: the keys of `MODEL_CONFIGS` (app.py lines
64-80). -/
def MODEL_CONFIG_KEYS : List String := ["groq", "openai", "local"]

/-- Embedding of `get_current_mode()` (app.py lines 343-345):
`session.get('ai_mode', 'groq')`. -/
def get_current_mode (sessionMode : Option String) : String :=
  sessionMode.getD "groq"

/-- Embedding of the `/switch_mode` route (app.py lines 418-439).
`formMode` is `request.form.get('mode', 'groq')`; an unrecognized value
leaves the session untouched and answers failure with status 400, a
recognized one is stored in the session and answered with success and
status 200.  Result: (new session mode, success flag, HTTP status). -/
def switch_mode (formMode : Option String) (sessionMode : Option String) :
    Option String × Bool × Nat :=
  let mode := formMode.getD "groq"
  if MODEL_CONFIG_KEYS.contains mode then (some mode, true, 200)
  else (sessionMode, false, 400)

/-- Python's `str.strip()` with no argument, as `query.strip()` uses it:
drop leading and trailing whitespace.  (Written over the character list so
that concrete instances evaluate; Lean's own `String.trim` is defined by
well-founded recursion and does not reduce.) -/
def pyStrip (s : String) : String :=
  ⟨((s.data.dropWhile Char.isWhitespace).reverse.dropWhile Char.isWhitespace).reverse⟩

/-! ## The `/search` route (src/app.py lines 110-123 and 378-416) -/

/-- The process-wide mutable state the route touches: the per-identity rate
records (`rate_limit_tracker`, a `defaultdict(list)`), the result cache
(`search_cache`), the global history (`search_history`) and this session's
stored `ai_mode`. -/
structure AppState where
  rateTracker : String → List Int
  searchCache : Cache (List SourceResult)
  searchHistory : List HistoryEntry
  sessionMode : Option String

/-- Update one identity's rate record, as assignment to
`rate_limit_tracker[user_id]` does. -/
def updateTracker (tr : String → List Int) (userId : String) (l : List Int) :
    String → List Int :=
  fun u => if u = userId then l else tr u

/-- What the `/search` route renders: the rate-limit error page with status
429, the empty-query error page with status 400, or the results page. -/
inductive SearchResponse where
  | rateLimited
  | validationError
  | results (answer : String) (mode : String) (sources : List SourceResult)
      (remaining : Nat)
deriving DecidableEq

/-- The cache key the `cache_result` decorator derives for
`search_web(query)`: `f"{func.__name__}:{str(args)}:{str(kwargs)}"` with
`args = (query,)` and no kwargs (app.py line 132; quotes and braces are the
ones Python's `str` prints). -/
def search_web_cache_key (query : String) : String :=
  "search_web:(\x27" ++ query ++ "\x27,):\x7b\x7d"

/-- Embedding of the `/search` route (app.py lines 378-416) together with
the `rate_limit_decorator` wrapped around it (lines 110-123).  The decorator
runs first: it checks the rate limit (pruning the identity's record), bails
out with 429 when denied, otherwise records the search and only then enters
the handler, which trims the query, rejects an empty one with 400,
recomputes the remaining quota, obtains sources through the cached
`search_web`, generates the answer for the session's mode and appends the
history entry. -/
def search (now : Int) (timeStr : String) (userId : String)
    (formQuery : Option String) (serperKey : Option String)
    (http : SerperOutcome) (groqKey openaiKey : Option String)
    (groqApi openaiApi : String → Except String String)
    (ollama : String → OllamaOutcome) (maxHistory : Nat) (st : AppState) :
    SearchResponse × AppState :=
  -- rate_limit_decorator's wrapper
  let checked := check_rate_limit now (st.rateTracker userId)
  let st1 := { st with rateTracker := updateTracker st.rateTracker userId checked.1 }
  if checked.2.1 = false then (.rateLimited, st1)
  else
    -- record_search(user_id)
    let st2 := { st1 with
      rateTracker := updateTracker st1.rateTracker userId
        (record_search now (st1.rateTracker userId)) }
    -- the handler: query = request.form.get('query', '').strip()
    let query := pyStrip (formQuery.getD "")
    if query = "" then (.validationError, st2)
    else
      let mode := get_current_mode st2.sessionMode
      -- _, remaining = check_rate_limit(user_id) (prunes again)
      let checked2 := check_rate_limit now (st2.rateTracker userId)
      let st3 := { st2 with
        rateTracker := updateTracker st2.rateTracker userId checked2.1 }
      let remaining := checked2.2.2
      -- sources = search_web(query), through the cache_result decorator
      let cached := cache_result 3600 (search_web_cache_key query)
        (fun _ => search_web serperKey http query) now st3.searchCache
      let sources := cached.1
      let st4 := { st3 with searchCache := cached.2.1 }
      let answer := generate_answer groqKey openaiKey groqApi openaiApi ollama
        query sources mode
      let st5 := { st4 with
        searchHistory := add_to_history maxHistory timeStr query mode st4.searchHistory }
      (.results answer mode sources remaining, st5)

/-! ## LLMHandler (src/models/llm_handler.py) -/

/-- Embedding of `LLMHandler.__init__` (llm_handler.py lines 8-19): `mode`
comes from `LLM_MODE` (default `'local'`); the model name is chosen by the
`groq`/`openai` branches, any other mode (recognized or not) falling into
the `else` that picks the local model. -/
structure LLMHandler where
  mode : String
  model : String
deriving DecidableEq

/-- The constructor logic of `LLMHandler` (llm_handler.py lines 8-19). -/
def LLMHandler_init (envLLMMode envGroqModel envOpenaiModel envLocalModel :
    Option String) : LLMHandler :=
  let mode := envLLMMode.getD "local"
  if mode = "groq" then { mode := mode, model := envGroqModel.getD "llama3-8b-8192" }
  else if mode = "openai" then
    { mode := mode, model := envOpenaiModel.getD "gpt-3.5-turbo" }
  else { mode := mode, model := envLocalModel.getD "llama3.2:3b" }

/-- Embedding of `LLMHandler.generate(prompt, context, max_tokens)`
(llm_handler.py lines 21-35).  `localCall` never raises (`_generate_local`
catches everything and returns a string); `groqCall`/`openaiCall` may raise,
and the surrounding `try` converts the exception to an error string.  The
dispatch chain has no `else`, so a mode outside the three branches makes the
Python function return `None` — here `Option.none`. -/
def LLMHandler.generate (h : LLMHandler) (localCall : String → String)
    (groqCall openaiCall : String → Except String String)
    (prompt context : String) : Option String :=
  let fullPrompt := if context = "" then prompt else context ++ "\n\n" ++ prompt
  if h.mode = "local" then some (localCall fullPrompt)
  else if h.mode = "groq" then
    some (match groqCall fullPrompt with
      | .ok r => r
      | .error e => "Error generating response: " ++ e)
  else if h.mode = "openai" then
    some (match openaiCall fullPrompt with
      | .ok r => r
      | .error e => "Error generating response: " ++ e)
  else none

/-- The process-wide state right after startup: an empty `defaultdict`
tracker, an empty cache, an empty history and no stored session mode. -/
def initialState : AppState :=
  { rateTracker := fun _ => []
    searchCache := fun _ => none
    searchHistory := []
    sessionMode := none }

/-! ## Helper lemmas -/

/-- Truncating after an append absorbs an inner truncation of the right
part. -/
theorem take_append_take (A B : List HistoryEntry) (n : Nat) :
    (A ++ B.take n).take n = (A ++ B).take n := by
  rw [List.take_append_eq_append_take, List.take_append_eq_append_take,
    List.take_take]
  have h : min (n - A.length) n = n - A.length := by omega
  rw [h]

/-- Closed form of a run of `add_to_history` insertions into a history that
respects the cap: the reversed insertion order, truncated. -/
theorem insertAll_eq (maxH : Nat) :
    ∀ (es h : List HistoryEntry), h.length ≤ maxH →
      insertAll maxH es h = ((es.reverse ++ h).take maxH) := by
  intro es
  induction es with
  | nil =>
    intro h hh
    simp [insertAll, List.take_of_length_le hh]
  | cons e es ih =>
    intro h hh
    have step : insertAll maxH (e :: es) h =
        insertAll maxH es ((e :: h).take maxH) := rfl
    rw [step, ih _ (by simpa using List.length_take_le maxH (e :: h))]
    rw [take_append_take, List.reverse_cons, List.append_assoc]
    simp

/-- Reduction of `WebSearch.searchSerper` on a successful payload with no
knowledge-graph block. -/
theorem searchSerper_ok_none_eq (organic : List SerperItem) (maxResults : Nat) :
    WebSearch.searchSerper (Except.ok ⟨organic, none⟩) maxResults =
      Except.ok ((organic.take maxResults).map (fun r =>
        { title := r.title.getD "",
          snippet := r.snippet.getD "",
          url := r.link.getD "",
          source := "Google (via Serper)" : SourceResult })) := rfl

/-- Reduction of `WebSearch.searchSerper` on a successful payload carrying a
knowledge-graph block. -/
theorem searchSerper_ok_some_eq (organic : List SerperItem)
    (kg : KnowledgeGraph) (maxResults : Nat) :
    WebSearch.searchSerper (Except.ok ⟨organic, some kg⟩) maxResults =
      (if ((organic.take maxResults).map (fun r =>
           { title := r.title.getD "",
             snippet := r.snippet.getD "",
             url := r.link.getD "",
             source := "Google (via Serper)" : SourceResult })).length < maxResults then
         match kg.description with
         | some desc =>
           Except.ok ({ title := kg.title.getD "",
                        snippet := desc,
                        url := kg.website.getD "",
                        source := "Knowledge Graph" } ::
             (organic.take maxResults).map (fun r =>
               { title := r.title.getD "",
                 snippet := r.snippet.getD "",
                 url := r.link.getD "",
                 source := "Google (via Serper)" : SourceResult }))
         | none =>
           Except.ok ((organic.take maxResults).map (fun r =>
             { title := r.title.getD "",
               snippet := r.snippet.getD "",
               url := r.link.getD "",
               source := "Google (via Serper)" : SourceResult }))
       else
         Except.ok ((organic.take maxResults).map (fun r =>
           { title := r.title.getD "",
             snippet := r.snippet.getD "",
             url := r.link.getD "",
             source := "Google (via Serper)" : SourceResult }))) := rfl

/-! ## Claim theorems -/

/-- C3 counterexample.  The claim reads `check` as discarding only the
timestamps strictly older than `now - windowSeconds`; at `now = 3600` the
timestamp `0` is exactly `windowSeconds` old, so under the claim it
survives and the predicted remaining quota is `max(0, 50 - 1) = 49` — but
`check_rate_limit` discards it (its filter keeps `ts` only when
`now - ts < RATE_LIMIT_WINDOW`) and returns remaining `50` over an empty
surviving list. -/
theorem rate_limit_prune_boundary_cex :
    spec_surviving_timestamps 3600 [0] = [0] ∧
    RATE_LIMIT_SEARCHES - (spec_surviving_timestamps 3600 [0]).length = 49 ∧
    (check_rate_limit 3600 [0]).1 = [] ∧
    (check_rate_limit 3600 [0]).2.2 = 50 := by
  refine ⟨?_, ?_, ?_, ?_⟩ <;> decide

/-- C3 (amended): `check_rate_limit` first discards every timestamp at
least `windowSeconds` old (`now - ts ≥ RATE_LIMIT_WINDOW`, so also the one
exactly `windowSeconds` old), then returns `allowed` exactly when the
surviving count is below the limit and `remaining = max(0,
limit - survivingCount)`.  After exactly `limit` requests recorded strictly
within the window the next check denies; once every recorded timestamp is
at least `windowSeconds` old, check allows again with the full quota. -/
theorem check_rate_limit_spec (now : Int) (record : List Int) :
    (check_rate_limit now record).1 =
      record.filter (fun ts => decide (now - ts < RATE_LIMIT_WINDOW)) ∧
    (check_rate_limit now record).2.1 =
      decide ((check_rate_limit now record).1.length < RATE_LIMIT_SEARCHES) ∧
    ((check_rate_limit now record).2.2 : Int) =
      max 0 ((RATE_LIMIT_SEARCHES : Int) - (check_rate_limit now record).1.length) ∧
    (record.length = RATE_LIMIT_SEARCHES →
      (∀ ts ∈ record, now - ts < RATE_LIMIT_WINDOW) →
      (check_rate_limit now record).2.1 = false) ∧
    ((∀ ts ∈ record, RATE_LIMIT_WINDOW ≤ now - ts) →
      (check_rate_limit now record).2.1 = true ∧
      (check_rate_limit now record).2.2 = RATE_LIMIT_SEARCHES) := by
  refine ⟨?_, ?_, ?_, ?_, ?_⟩
  · simp only [check_rate_limit]
    split <;> rfl
  · have h1 : (check_rate_limit now record).1 =
        record.filter (fun ts => decide (now - ts < RATE_LIMIT_WINDOW)) := by
      simp only [check_rate_limit]
      split <;> rfl
    rw [h1]
    simp only [check_rate_limit]
    split <;> rename_i h <;> dsimp only
    · exact (decide_eq_false (by omega)).symm
    · exact (decide_eq_true (by omega)).symm
  · have h1 : (check_rate_limit now record).1 =
        record.filter (fun ts => decide (now - ts < RATE_LIMIT_WINDOW)) := by
      simp only [check_rate_limit]
      split <;> rfl
    rw [h1]
    simp only [check_rate_limit]
    split <;> rename_i h <;> dsimp only <;> omega
  · intro hlen hall
    have hk : record.filter (fun ts => decide (now - ts < RATE_LIMIT_WINDOW)) = record :=
      List.filter_eq_self.mpr (fun a ha => decide_eq_true (hall a ha))
    simp only [check_rate_limit]
    rw [hk, if_pos (le_of_eq hlen.symm)]
  · intro hall
    have hnil : record.filter (fun ts => decide (now - ts < RATE_LIMIT_WINDOW)) = [] :=
      List.filter_eq_nil_iff.mpr
        (fun a ha => by simpa using not_lt.mpr (hall a ha))
    simp only [check_rate_limit]
    rw [hnil]
    constructor <;> rfl

/-- C5: every insert leaves the history with at most `MAX_HISTORY` entries,
and inserting `MAX_HISTORY + 5` entries into an empty history leaves exactly
the `MAX_HISTORY` newest entries in newest-first order — the reverse of the
insertion order with the oldest five dropped. -/
theorem history_cap_newest_first (maxHistory : Nat) (timeStr query mode : String)
    (hist : List HistoryEntry) (es : List HistoryEntry) :
    (add_to_history maxHistory timeStr query mode hist).length ≤ maxHistory ∧
    (es.length = maxHistory + 5 →
      insertAll maxHistory es [] = (es.drop 5).reverse ∧
      (insertAll maxHistory es []).length = maxHistory) := by
  constructor
  · exact List.length_take_le maxHistory _
  · intro hlen
    have heq : insertAll maxHistory es [] = es.reverse.take maxHistory := by
      rw [insertAll_eq maxHistory es [] (by simp)]
      simp
    have hrev : es.reverse.take maxHistory = (es.drop 5).reverse := by
      rw [List.take_reverse]
      have h5 : es.length - maxHistory = 5 := by omega
      rw [h5]
    refine ⟨heq.trans hrev, ?_⟩
    rw [heq, List.length_take, List.length_reverse, hlen]
    exact min_eq_left (by omega)

/-- C4: with a well-formed start state (any entry already stored under `k`
holds the value `compute` produces), two `cache_result` calls on the same
key within `duration` seconds invoke `compute` at most once — if the first
call invoked it, the second is a hit — and both return the computed value;
and a call that misses or finds an expired entry stores `(value, now)`
under the key, overwriting the stale entry. -/
theorem cache_round_trip {α : Type} (k : String) (d : Int) (compute : Unit → α)
    (t1 t2 : Int) (c : Cache α)
    (hwf : ∀ w ts, c k = some (w, ts) → w = compute ())
    (hwin : t2 - t1 < d) :
    (cache_result d k compute t1 c).1 = compute () ∧
    (cache_result d k compute t2 (cache_result d k compute t1 c).2.1).1 = compute () ∧
    ((cache_result d k compute t1 c).2.2 = true →
      (cache_result d k compute t2 (cache_result d k compute t1 c).2.1).2.2 = false) ∧
    ((c k = none ∨ ∃ w ts, c k = some (w, ts) ∧ d ≤ t1 - ts) →
      (cache_result d k compute t1 c).2.1 k = some (compute (), t1)) := by
  rcases hc : c k with _ | ⟨w, ts⟩
  · have h1 : cache_result d k compute t1 c =
        (compute (), cacheInsert c k (compute ()) t1, true) := by
      simp only [cache_result, hc]
    have hk2 : (cacheInsert c k (compute ()) t1) k = some (compute (), t1) := by
      simp [cacheInsert]
    have h2 : cache_result d k compute t2 (cacheInsert c k (compute ()) t1) =
        (compute (), cacheInsert c k (compute ()) t1, false) := by
      simp only [cache_result, hk2]
      rw [if_pos hwin]
    refine ⟨by rw [h1], ?_, ?_, ?_⟩
    · rw [h1]
      dsimp only
      rw [h2]
    · intro _
      rw [h1]
      dsimp only
      rw [h2]
    · intro _
      rw [h1]
      dsimp only
      exact hk2
  · have hwv : w = compute () := hwf w ts hc
    by_cases hfresh : t1 - ts < d
    · have h1 : cache_result d k compute t1 c = (w, c, false) := by
        simp only [cache_result, hc]
        rw [if_pos hfresh]
      refine ⟨by rw [h1]; exact hwv, ?_, ?_, ?_⟩
      · rw [h1]
        dsimp only
        by_cases hfresh2 : t2 - ts < d
        · simp only [cache_result, hc]
          rw [if_pos hfresh2]
          exact hwv
        · simp only [cache_result, hc]
          rw [if_neg hfresh2]
      · intro habs
        rw [h1] at habs
        exact absurd habs (by simp)
      · intro hmiss
        rcases hmiss with hnone | ⟨w', ts', hsome, hexp⟩
        · exact Option.noConfusion hnone
        · injection hsome with h'
          cases h'
          omega
    · have h1 : cache_result d k compute t1 c =
          (compute (), cacheInsert c k (compute ()) t1, true) := by
        simp only [cache_result, hc]
        rw [if_neg hfresh]
      have hk2 : (cacheInsert c k (compute ()) t1) k = some (compute (), t1) := by
        simp [cacheInsert]
      have h2 : cache_result d k compute t2 (cacheInsert c k (compute ()) t1) =
          (compute (), cacheInsert c k (compute ()) t1, false) := by
        simp only [cache_result, hk2]
        rw [if_pos hwin]
      refine ⟨by rw [h1], ?_, ?_, ?_⟩
      · rw [h1]
        dsimp only
        rw [h2]
      · intro _
        rw [h1]
        dsimp only
        rw [h2]
      · intro _
        rw [h1]
        dsimp only
        exact hk2

/-- C4 witness: a fresh cache, `compute` returning `7`, the two calls at
instants `0` and `5` with duration `10`. -/
theorem cache_round_trip_witness :
    (cache_result 10 "search_web" (fun _ => (7 : Nat)) 0 (fun _ => none)).1 = 7 ∧
    (cache_result 10 "search_web" (fun _ => (7 : Nat)) 5
      (cache_result 10 "search_web" (fun _ => (7 : Nat)) 0 (fun _ => none)).2.1).1 = 7 ∧
    ((cache_result 10 "search_web" (fun _ => (7 : Nat)) 0 (fun _ => none)).2.2 = true →
      (cache_result 10 "search_web" (fun _ => (7 : Nat)) 5
        (cache_result 10 "search_web" (fun _ => (7 : Nat)) 0 (fun _ => none)).2.1).2.2 = false) ∧
    (((fun _ => none : Cache Nat) "search_web" = none ∨
        ∃ w ts, (fun _ => none : Cache Nat) "search_web" = some (w, ts) ∧ 10 ≤ 0 - ts) →
      (cache_result 10 "search_web" (fun _ => (7 : Nat)) 0 (fun _ => none)).2.1 "search_web" =
        some (7, 0)) :=
  cache_round_trip "search_web" 10 (fun _ => (7 : Nat)) 0 5 (fun _ => none)
    (fun w ts h => Option.noConfusion h) (by decide)

/-- C7: `generate_answer` dispatches to exactly the one backend strategy
`generate_answer_backend mode` selects (OpenAI for `'openai'`, the local
Ollama generator for `'local'`, Groq for everything else), the selection is
always one of the three, and any mode outside the recognized set selects
the default Groq backend. -/
theorem generate_answer_dispatch (groqKey openaiKey : Option String)
    (groqApi openaiApi : String → Except String String)
    (ollama : String → OllamaOutcome) (query : String)
    (sources : List SourceResult) (mode : String) :
    (generate_answer groqKey openaiKey groqApi openaiApi ollama query sources mode =
      match generate_answer_backend mode with
      | .openai => generate_answer_openai openaiKey openaiApi query sources
      | .ollama => generate_answer_local ollama query sources
      | .groq => generate_answer_groq groqKey groqApi query sources) ∧
    (generate_answer_backend mode = .groq ∨ generate_answer_backend mode = .openai ∨
      generate_answer_backend mode = .ollama) ∧
    (mode ∉ MODEL_CONFIG_KEYS → generate_answer_backend mode = .groq) := by
  refine ⟨?_, ?_, ?_⟩
  · by_cases h1 : mode = "openai" <;> by_cases h2 : mode = "local" <;>
      simp [generate_answer, generate_answer_backend, h1, h2]
  · by_cases h1 : mode = "openai" <;> by_cases h2 : mode = "local" <;>
      simp [generate_answer_backend, h1, h2]
  · intro hm
    have h1 : mode ≠ "openai" := fun h => hm (by rw [h]; decide)
    have h2 : mode ≠ "local" := fun h => hm (by rw [h]; decide)
    simp [generate_answer_backend, h1, h2]

/-- C8: the context block each answer generator feeds into its prompt is
exactly the blank-line-joined concatenation of the `**title**: snippet`
renderings of the sources whose tag is not `"Error"`; prepending an
`"Error"`-tagged diagnostic source changes no prompt, a list of only
`"Error"`-tagged sources yields an empty context, and each generator sends
its backend exactly its template around this context. -/
theorem prompt_context_excludes_error_sources (query : String)
    (sources : List SourceResult) (k : String)
    (api : String → Except String String) (ollama : String → OllamaOutcome) :
    source_context sources =
      String.intercalate "\n\n"
        ((sources.filter (fun s => decide (s.source ≠ "Error"))).map
          (fun s => "**" ++ s.title ++ "**: " ++ s.snippet)) ∧
    (∀ diag : SourceResult, diag.source = "Error" →
      source_context (diag :: sources) = source_context sources ∧
      generate_answer_groq (some k) api query (diag :: sources) =
        generate_answer_groq (some k) api query sources ∧
      generate_answer_openai (some k) api query (diag :: sources) =
        generate_answer_openai (some k) api query sources ∧
      generate_answer_local ollama query (diag :: sources) =
        generate_answer_local ollama query sources) ∧
    ((∀ s ∈ sources, s.source = "Error") → source_context sources = "") ∧
    (generate_answer_groq (some k) api query sources =
      match api (hosted_prompt query (source_context sources)) with
      | .ok content => content
      | .error e =>
        "Error generating answer with Groq: " ++ e
          ++ "\n\nPlease check your API key or try a different model.") ∧
    (generate_answer_local ollama query sources =
      match ollama (local_prompt query (source_context sources)) with
      | .connectionError =>
        "Error: Cannot connect to Ollama. Make sure Ollama is running locally (http://localhost:11434)"
      | .exn e => "Error generating answer with Ollama: " ++ e
      | .resp statusCode body =>
        if statusCode = 200 then body.getD "No response generated"
        else "Error: Ollama returned status code " ++ toString statusCode) := by
  have hdrop : ∀ diag : SourceResult, diag.source = "Error" →
      source_context (diag :: sources) = source_context sources := by
    intro diag hdiag
    simp [source_context, List.filter, hdiag]
  refine ⟨rfl, ?_, ?_, rfl, rfl⟩
  · intro diag hdiag
    refine ⟨hdrop diag hdiag, ?_, ?_, ?_⟩
    · simp only [generate_answer_groq, hdrop diag hdiag]
    · simp only [generate_answer_openai, hdrop diag hdiag]
    · simp only [generate_answer_local, hdrop diag hdiag]
  · intro hall
    have hnil : sources.filter (fun s => decide (s.source ≠ "Error")) = [] :=
      List.filter_eq_nil_iff.mpr (fun a ha => by simp [hall a ha])
    rw [source_context, hnil]
    rfl

/-- C10: an `LLMHandler` whose mode is none of `'local'`, `'groq'`,
`'openai'` is constructed successfully (the constructor's `else` picks the
local model name for it), yet `generate` falls through every branch of its
dispatch chain and returns `None` rather than an answer or error string. -/
theorem llmhandler_unknown_mode_generate_none (m : String)
    (envGroqModel envOpenaiModel envLocalModel : Option String)
    (localCall : String → String)
    (groqCall openaiCall : String → Except String String)
    (prompt context : String)
    (hm : m ∉ (["local", "groq", "openai"] : List String)) :
    (LLMHandler_init (some m) envGroqModel envOpenaiModel envLocalModel).mode = m ∧
    (LLMHandler_init (some m) envGroqModel envOpenaiModel envLocalModel).model =
      envLocalModel.getD "llama3.2:3b" ∧
    (LLMHandler_init (some m) envGroqModel envOpenaiModel envLocalModel).generate
      localCall groqCall openaiCall prompt context = none := by
  have h1 : m ≠ "local" := fun h => hm (by simp [h])
  have h2 : m ≠ "groq" := fun h => hm (by simp [h])
  have h3 : m ≠ "openai" := fun h => hm (by simp [h])
  have hinit : LLMHandler_init (some m) envGroqModel envOpenaiModel envLocalModel =
      { mode := m, model := envLocalModel.getD "llama3.2:3b" } := by
    simp [LLMHandler_init, h2, h3]
  refine ⟨by rw [hinit], by rw [hinit], ?_⟩
  rw [hinit]
  simp [LLMHandler.generate, h1, h2, h3]

/-- C10 witness: the unrecognized mode `"mistral"`, with no model names
configured in the environment. -/
theorem llmhandler_unknown_mode_witness :
    (LLMHandler_init (some "mistral") none none none).mode = "mistral" ∧
    (LLMHandler_init (some "mistral") none none none).model = "llama3.2:3b" ∧
    (LLMHandler_init (some "mistral") none none none).generate
      (fun p => p) (fun p => Except.ok p) (fun p => Except.ok p) "hi" "" = none :=
  llmhandler_unknown_mode_generate_none "mistral" none none none
    (fun p => p) (fun p => Except.ok p) (fun p => Except.ok p) "hi" "" (by decide)

/-- C2: `WebSearch.search` never propagates an exception (its total result
type together with the explicit catch branches below is the no-throw
contract).  With no primary credential the secondary provider is used
directly; with a credential, a raised primary call or an empty primary
result falls back to the secondary provider; a non-empty primary result is
returned as is; and a raised secondary call yields the empty list rather
than an error or a diagnostic entry. -/
theorem websearch_fallback_never_raises (serperKey : Option String)
    (http : Except Unit SerperData) (ddg : Except Unit (List WebSearch.DdgItem))
    (maxResults : Nat) :
    (serperKey = none →
      WebSearch.search serperKey http ddg maxResults = WebSearch.searchDuckduckgo ddg) ∧
    (serperKey ≠ none → http = .error () →
      WebSearch.search serperKey http ddg maxResults = WebSearch.searchDuckduckgo ddg) ∧
    (serperKey ≠ none → WebSearch.searchSerper http maxResults = .ok [] →
      WebSearch.search serperKey http ddg maxResults = WebSearch.searchDuckduckgo ddg) ∧
    (∀ results, serperKey ≠ none →
      WebSearch.searchSerper http maxResults = .ok results → results ≠ [] →
      WebSearch.search serperKey http ddg maxResults = results) ∧
    (ddg = .error () → WebSearch.searchDuckduckgo ddg = []) ∧
    (WebSearch.search serperKey http ddg maxResults = WebSearch.searchDuckduckgo ddg ∨
      ∃ results, WebSearch.searchSerper http maxResults = .ok results ∧
        WebSearch.search serperKey http ddg maxResults = results) := by
  refine ⟨?_, ?_, ?_, ?_, ?_, ?_⟩
  · intro hk
    rw [hk]
    rfl
  · intro hk hhttp
    rcases serperKey with _ | key
    · exact absurd rfl hk
    · have hs : WebSearch.searchSerper http maxResults = .error () := by
        rw [hhttp]
        rfl
      simp [WebSearch.search, hs]
  · intro hk hs
    rcases serperKey with _ | key
    · exact absurd rfl hk
    · simp [WebSearch.search, hs]
  · intro results hk hs hne
    rcases serperKey with _ | key
    · exact absurd rfl hk
    · simp [WebSearch.search, hs, hne]
  · intro hd
    rw [hd]
    rfl
  · rcases serperKey with _ | key
    · exact Or.inl rfl
    · rcases hs : WebSearch.searchSerper http maxResults with _ | results
      · left
        simp [WebSearch.search, hs]
      · by_cases hne : results.isEmpty
        · left
          simp [WebSearch.search, hs, hne]
        · right
          exact ⟨results, rfl, by simp [WebSearch.search, hs, hne]⟩

/-- C9 counterexample.  The claim says every query yields a non-empty
sequence, but `WebSearch.search` (cited by the claim through
`_search_duckduckgo`) returns the empty list whenever it reaches the
secondary provider and that provider's call raises — both with no primary
credential and with a credential whose primary call fails. -/
theorem websearch_empty_on_secondary_failure_cex :
    WebSearch.search none (Except.error ()) (Except.error ()) 5 = [] ∧
    WebSearch.search (some "serper-key") (Except.error ()) (Except.error ()) 5 = [] :=
  ⟨rfl, rfl⟩

/-- C9 (amended): the pipeline's own search operation `search_web` always
produces a non-empty sequence of at most 5 `SourceResult`s, and the primary
branch of `WebSearch.search` never produces more than `maxResults` results
(a knowledge-graph entry is prepended only while the count is below
`maxResults`); but `WebSearch.search` itself may produce the empty sequence
when the secondary provider fails. -/
theorem search_web_nonempty_bounded (serperKey : Option String)
    (http : SerperOutcome) (query : String) :
    search_web serperKey http query ≠ [] ∧
    (search_web serperKey http query).length ≤ 5 ∧
    (∀ httpE results maxResults, WebSearch.searchSerper httpE maxResults = .ok results →
      results.length ≤ maxResults) := by
  refine ⟨?_, ?_, ?_⟩
  · rcases serperKey with _ | key
    · simp [search_web]
    · rcases http with _ | msg | data
      · simp [search_web]
      · simp [search_web]
      · simp only [search_web]
        split <;> simp_all
  · rcases serperKey with _ | key
    · simp [search_web]
    · rcases http with _ | msg | data
      · simp [search_web]
      · simp [search_web]
      · simp only [search_web]
        split <;> rename_i hemp
        · simp_all
        · have := List.length_take_le 5 data.organic
          simpa using this
  · intro httpE results maxResults hok
    rcases httpE with he | data
    · rw [show WebSearch.searchSerper (Except.error he) maxResults =
          Except.error he from rfl] at hok
      exact Except.noConfusion hok
    · rcases data with ⟨organic, kgOpt⟩
      have hlen : ((organic.take maxResults).map (fun r =>
          { title := r.title.getD "",
            snippet := r.snippet.getD "",
            url := r.link.getD "",
            source := "Google (via Serper)" : SourceResult })).length ≤ maxResults := by
        rw [List.length_map]
        exact List.length_take_le maxResults organic
      rcases kgOpt with _ | kg
      · rw [searchSerper_ok_none_eq] at hok
        injection hok with hok
        rw [← hok]
        exact hlen
      · rw [searchSerper_ok_some_eq] at hok
        set shaped := (organic.take maxResults).map (fun r =>
          { title := r.title.getD "",
            snippet := r.snippet.getD "",
            url := r.link.getD "",
            source := "Google (via Serper)" : SourceResult }) with hshaped
        by_cases hlt : shaped.length < maxResults
        · rw [if_pos hlt] at hok
          rcases hdesc : kg.description with _ | desc <;> rw [hdesc] at hok
          · injection hok with hok
            rw [← hok]
            exact hlen
          · injection hok with hok
            rw [← hok]
            simp only [List.length_cons]
            omega
        · rw [if_neg hlt] at hok
          injection hok with hok
          rw [← hok]
          exact hlen

/-- C6: switching to an unrecognized mode leaves the session's stored mode
unchanged and reports failure with status 400; switching to a recognized
mode stores it with success and status 200, and a subsequent search in that
session answers with that mode, its answer generated by the dispatch at
that mode. -/
theorem switch_mode_session_dispatch (formMode : Option String) (m : String)
    (sess : Option String) (now : Int) (timeStr userId q : String)
    (serperKey : Option String) (http : SerperOutcome)
    (groqKey openaiKey : Option String)
    (groqApi openaiApi : String → Except String String)
    (ollama : String → OllamaOutcome) (maxHistory : Nat) (st : AppState) :
    (formMode.getD "groq" ∉ MODEL_CONFIG_KEYS →
      switch_mode formMode sess = (sess, false, 400)) ∧
    (m ∈ MODEL_CONFIG_KEYS →
      switch_mode (some m) sess = (some m, true, 200) ∧
      get_current_mode (switch_mode (some m) sess).1 = m) ∧
    (st.sessionMode = some m →
      pyStrip q ≠ "" →
      (check_rate_limit now (st.rateTracker userId)).2.1 = true →
      ∃ sources remaining,
        (search now timeStr userId (some q) serperKey http groqKey openaiKey
            groqApi openaiApi ollama maxHistory st).1 =
          SearchResponse.results
            (generate_answer groqKey openaiKey groqApi openaiApi ollama (pyStrip q)
              sources m)
            m sources remaining) := by
  refine ⟨?_, ?_, ?_⟩
  · intro hm
    simp only [switch_mode]
    rw [if_neg (by simpa using hm)]
  · intro hm
    have h : switch_mode (some m) sess = (some m, true, 200) := by
      simp only [switch_mode, Option.getD_some]
      rw [if_pos (by simpa using hm)]
    refine ⟨h, ?_⟩
    rw [h]
    rfl
  · intro hsess hq hallow
    refine ⟨(cache_result 3600 (search_web_cache_key (pyStrip q))
        (fun _ => search_web serperKey http (pyStrip q)) now st.searchCache).1,
      (check_rate_limit now
        (record_search now (check_rate_limit now (st.rateTracker userId)).1)).2.2, ?_⟩
    simp only [search, hallow, updateTracker, Option.getD_some]
    rw [if_neg (by simp), if_neg hq]
    simp only [hsess, get_current_mode, Option.getD_some, if_pos rfl]
    simp

/-- C1 (amended): an empty or whitespace-only query is rejected with the
validation error (400) and appends no history entry and no cache entry, but
the rate-limit decorator runs first: when the identity is within its limit
the search is recorded before the handler sees the query, so the rejected
request does consume a slot (the pruned record gains the current
timestamp); and when the identity is over the limit the rate-limit error
(429) takes precedence over validation. -/
theorem empty_query_rejected_after_slot (now : Int) (timeStr userId : String)
    (formQuery : Option String) (serperKey : Option String) (http : SerperOutcome)
    (groqKey openaiKey : Option String)
    (groqApi openaiApi : String → Except String String)
    (ollama : String → OllamaOutcome) (maxHistory : Nat) (st : AppState) :
    (pyStrip (formQuery.getD "") = "" →
      (check_rate_limit now (st.rateTracker userId)).2.1 = true →
      (search now timeStr userId formQuery serperKey http groqKey openaiKey
          groqApi openaiApi ollama maxHistory st).1 =
        SearchResponse.validationError ∧
      (search now timeStr userId formQuery serperKey http groqKey openaiKey
          groqApi openaiApi ollama maxHistory st).2.rateTracker userId =
        (check_rate_limit now (st.rateTracker userId)).1 ++ [now] ∧
      (search now timeStr userId formQuery serperKey http groqKey openaiKey
          groqApi openaiApi ollama maxHistory st).2.searchHistory =
        st.searchHistory ∧
      (search now timeStr userId formQuery serperKey http groqKey openaiKey
          groqApi openaiApi ollama maxHistory st).2.searchCache =
        st.searchCache) ∧
    (pyStrip (formQuery.getD "") = "" →
      (check_rate_limit now (st.rateTracker userId)).2.1 = false →
      (search now timeStr userId formQuery serperKey http groqKey openaiKey
          groqApi openaiApi ollama maxHistory st).1 =
        SearchResponse.rateLimited ∧
      (search now timeStr userId formQuery serperKey http groqKey openaiKey
          groqApi openaiApi ollama maxHistory st).2.rateTracker userId =
        (check_rate_limit now (st.rateTracker userId)).1 ∧
      (search now timeStr userId formQuery serperKey http groqKey openaiKey
          groqApi openaiApi ollama maxHistory st).2.searchHistory =
        st.searchHistory) := by
  constructor
  · intro hq hallow
    simp only [search, hallow, updateTracker, record_search]
    rw [if_neg (by simp), if_pos hq]
    simp [updateTracker]
  · intro hq hdenied
    simp only [search, hdenied, updateTracker]
    simp [updateTracker]

/-- C1 counterexample.  The concrete scenario of the claim: the empty query
in a fresh session.  The pipeline answers with the validation error, but
the identity's rate record — empty before the request — now holds the
request's timestamp: the rate-limit decorator checked and recorded before
the handler validated the query, so the rejected request did consume a
rate-limit slot (the history stays empty as the claim says). -/
theorem empty_query_consumes_slot_cex :
    (search 0 "2024-01-01 00:00:00" "user" (some "") (some "sk")
      SerperOutcome.timeout (some "gk") none (fun _ => Except.ok "a")
      (fun _ => Except.ok "a") (fun _ => OllamaOutcome.connectionError) 10
      initialState).1 = SearchResponse.validationError ∧
    (search 0 "2024-01-01 00:00:00" "user" (some "") (some "sk")
      SerperOutcome.timeout (some "gk") none (fun _ => Except.ok "a")
      (fun _ => Except.ok "a") (fun _ => OllamaOutcome.connectionError) 10
      initialState).2.rateTracker "user" = [0] ∧
    (search 0 "2024-01-01 00:00:00" "user" (some "") (some "sk")
      SerperOutcome.timeout (some "gk") none (fun _ => Except.ok "a")
      (fun _ => Except.ok "a") (fun _ => OllamaOutcome.connectionError) 10
      initialState).2.searchHistory = [] := by
  refine ⟨rfl, ?_, rfl⟩
  rfl

end HybridSearch
